import Mathlib

set_option maxRecDepth 65536

/-!
Verification of the BYOD security compliance checker (byod_security_check.py).

The development shallowly embeds the platform-abstracted compliance check
engine: the `SecurityChecker` class's `run_command` wrapper, the twelve
per-platform probe functions, the four per-property dispatchers and
`run_all_checks`.  External command invocations are modelled by an
environment `Env` mapping each command string to the `(succeeded, output)`
pair that `run_command` would return for it, plus the one file-system
observation the Linux autolock probe makes (the KDE screen-locker
configuration file).  Each probe is a pure function of the command results
it consumes, written to follow the Python source line by line.
-/

/-! ## String utilities mirroring the Python primitives -/

/-- Boolean list prefix test (mirrors Python `str.startswith` on char lists). -/
def listIsPref : List Char → List Char → Bool
  | [], _ => true
  | _ :: _, [] => false
  | a :: as, b :: bs => a == b && listIsPref as bs

/-- Substring occurrence test on char lists (mirrors Python `pat in s`). -/
def listHasSub (pat : List Char) : List Char → Bool
  | [] => pat.isEmpty
  | b :: bs => listIsPref pat (b :: bs) || listHasSub pat bs

/-- Python `pat in s` substring containment. -/
def strContains (s pat : String) : Bool := listHasSub pat.data s.data

/-- Python `s.startswith(pat)`. -/
def strStartsWith (s pat : String) : Bool := listIsPref pat.data s.data

/-- Python `s.strip()` on a char list: drop whitespace at both ends. -/
def pyStripList (l : List Char) : List Char :=
  ((l.dropWhile Char.isWhitespace).reverse.dropWhile Char.isWhitespace).reverse

/-- Python `s.strip()`. -/
def pyStrip (s : String) : String := String.mk (pyStripList s.data)

/-- Emptiness of a string (Python falsiness of a string value). -/
def strIsEmpty (s : String) : Bool := s.data.isEmpty

/-- Split a char list on a separator character, keeping empty pieces. -/
def splitCharAux (c : Char) : List Char → List Char → List String
  | [], acc => [String.mk acc.reverse]
  | x :: xs, acc =>
    if x == c then String.mk acc.reverse :: splitCharAux c xs []
    else splitCharAux c xs (x :: acc)

/-- Python `s.split(c)` for a one-character separator. -/
def pySplitChar (c : Char) (s : String) : List String := splitCharAux c s.data []

/-- Lower-case one ASCII character. -/
def lowerChar (c : Char) : Char :=
  if 'A' ≤ c && c ≤ 'Z' then Char.ofNat (c.toNat + 32) else c

/-- Python `s.lower()` (ASCII range, which the probed outputs are). -/
def strLower (s : String) : String := String.mk (s.data.map lowerChar)

/-- Fuel-bounded non-overlapping occurrence counter on char lists. -/
def countSubAux : Nat → List Char → List Char → Nat
  | 0, _, _ => 0
  | Nat.succ fuel, pat, l =>
    match l with
    | [] => 0
    | c :: t =>
      if listIsPref pat (c :: t) then countSubAux fuel pat ((c :: t).drop pat.length) + 1
      else countSubAux fuel pat t

/-- Python `s.count(pat)` for non-empty `pat`: non-overlapping occurrences. -/
def strCountSub (s pat : String) : Nat := countSubAux s.data.length pat.data s.data

/-- Numeric value of a list of decimal digit characters. -/
def digitsToNat (l : List Char) : Nat := l.foldl (fun acc c => acc * 10 + (c.toNat - 48)) 0

/-- Value of one lowercase hexadecimal digit character. -/
def hexVal (c : Char) : Nat := if c.isDigit then c.toNat - 48 else c.toNat - 87

/-- Numeric value of a list of lowercase hexadecimal digit characters. -/
def hexToNat (l : List Char) : Nat := l.foldl (fun acc c => acc * 16 + hexVal c) 0

/-- Character class of the regex `[a-f0-9]`. -/
def isHexChar (c : Char) : Bool := c.isDigit || ('a' ≤ c && c ≤ 'f')

/-- Parse an all-digit non-empty char list. -/
def digitsVal? (l : List Char) : Option Nat :=
  if !l.isEmpty && l.all Char.isDigit then some (digitsToNat l) else none

/-- Python `int(s)`: strip whitespace, optional sign, decimal digits;
`none` models the `ValueError` raised on any other shape. -/
def pyInt? (s : String) : Option Int :=
  match pyStripList s.data with
  | '-' :: ds => (digitsVal? ds).map (fun n => -(n : Int))
  | '+' :: ds => (digitsVal? ds).map (fun n => (n : Int))
  | ds => (digitsVal? ds).map (fun n => (n : Int))

/-- Text of the `ValueError` Python raises for a bad `int()` literal. -/
def pyIntErr (s : String) : String := "invalid literal for int() with base 10: " ++ s

/-! ## Leftmost-match scanners for the regex patterns used by the probes.

Each Python probe uses `re.search` with a pattern made of literals,
`\s+` runs and a trailing `(\d+)` or `([a-f0-9]+)` group.  Because a
maximal run of whitespace (resp. digits) can never be followed by a
character of the same class, greedy maximal munch at each start position
is equivalent to the backtracking regex search, and `re.search` takes the
leftmost start position that matches. -/

/-- Match a literal prefix, returning the rest. -/
def matchLit (lit l : List Char) : Option (List Char) :=
  if listIsPref lit l then some (l.drop lit.length) else none

/-- Match `\s+` (one or more whitespace characters, maximal). -/
def matchWs1 : List Char → Option (List Char)
  | [] => none
  | c :: t => if c.isWhitespace then some (t.dropWhile Char.isWhitespace) else none

/-- Match `(\d+)` (one or more decimal digits, maximal) and read its value. -/
def matchNum1 (l : List Char) : Option Nat :=
  let ds := l.takeWhile Char.isDigit
  if ds.isEmpty then none else some (digitsToNat ds)

/-- Match `([a-f0-9]+)` (maximal) and read its hexadecimal value. -/
def matchHex1 (l : List Char) : Option Nat :=
  let ds := l.takeWhile isHexChar
  if ds.isEmpty then none else some (hexToNat ds)

/-- Try a matcher at every start position, leftmost first. -/
def scanFor (f : List Char → Option Nat) : List Char → Option Nat
  | [] => none
  | c :: t =>
    match f (c :: t) with
    | some n => some n
    | none => scanFor f t

/-- One attempt of `word\s+(\d+)` at the current position. -/
def tryWordNum (word : String) (l : List Char) : Option Nat := do
  let l1 ← matchLit word.data l
  let l2 ← matchWs1 l1
  matchNum1 l2

/-- `re.search(word + r'\s+(\d+)', s)`, the captured group as a number. -/
def findWordNum (word s : String) : Option Nat := scanFor (tryWordNum word) s.data

/-- One attempt of `ScreenSaveTimeOut\s+REG_SZ\s+(\d+)` at the current position. -/
def tryRegTimeout (l : List Char) : Option Nat := do
  let l1 ← matchLit "ScreenSaveTimeOut".data l
  let l2 ← matchWs1 l1
  let l3 ← matchLit "REG_SZ".data l2
  let l4 ← matchWs1 l3
  matchNum1 l4

/-- `re.search(r'ScreenSaveTimeOut\s+REG_SZ\s+(\d+)', s)` as a number. -/
def findRegTimeout (s : String) : Option Nat := scanFor tryRegTimeout s.data

/-- One attempt of `Current AC Power Setting Index: 0x([a-f0-9]+)`. -/
def tryAcHex (l : List Char) : Option Nat := do
  let l1 ← matchLit "Current AC Power Setting Index: 0x".data l
  matchHex1 l1

/-- `re.search(r'Current AC Power Setting Index: 0x([a-f0-9]+)', s)` as a number. -/
def findAcHex (s : String) : Option Nat := scanFor tryAcHex s.data

/-- One attempt of `Timeout=(\d+)` at the current position. -/
def tryKdeTimeout (l : List Char) : Option Nat := do
  let l1 ← matchLit "Timeout=".data l
  matchNum1 l1

/-- `re.search(r'Timeout=(\d+)', s)` as a number. -/
def findKdeTimeout (s : String) : Option Nat := scanFor tryKdeTimeout s.data

/-! ## Data model -/

/-- One probe result: the Python dict `{'status': ..., 'message': ...,
'remediation': ...}`.  The `remediation` field is an `Option` because the
unsupported-platform branches return a dict without that key. -/
structure CheckResult where
  status : Bool
  message : String
  remediation : Option String
deriving DecidableEq, Repr

/-- External world as observed by the checker: the result `run_command`
returns for each command string, and the content of the KDE
screen-locker configuration file (`none` when the file is absent or
unreadable, which the source treats identically). -/
structure Env where
  run : String → Bool × String
  kdeConfig : Option String

/-! ## CommandRunner (`run_command`) -/

/-- Outcome of one `subprocess.run` invocation. -/
inductive CommandOutcome where
  | completed (returncode : Int) (stdout : String)
  | timedOut (msg : String)
  | subprocessErr (msg : String)
deriving DecidableEq

/-- The timeout passed to `subprocess.run` in `run_command` (seconds). -/
def commandTimeoutSeconds : Nat := 30

/-- `run_command`: `(result.returncode == 0, result.stdout.strip())` on
completion, `(False, str(e))` for `TimeoutExpired` / `SubprocessError`. -/
def runCommandModel : CommandOutcome → Bool × String
  | .completed rc out => (decide (rc = 0), pyStrip out)
  | .timedOut m => (false, m)
  | .subprocessErr m => (false, m)

/-! ## Command strings -/

def cmdAlfGlobalstate : String := "defaults read /Library/Preferences/com.apple.alf globalstate"
def cmdPgrepSff : String := "pgrep -f \"socketfilterfw\""
def cmdNetshProfiles : String := "netsh advfirewall show allprofiles state"
def cmdPsFwProfiles : String := "powershell -Command \"Get-NetFirewallProfile | Select-Object Name, Enabled\""
def cmdUfwStatus : String := "ufw status"
def cmdIptables : String := "iptables -L -n"
def cmdFirewallCmd : String := "firewall-cmd --state"
def cmdFdesetup : String := "fdesetup status"
def cmdManageBde : String := "manage-bde -status"
def cmdLsblk : String := "lsblk -o NAME,FSTYPE"
def cmdProcMounts : String := "cat /proc/mounts"
def cmdDmsetup : String := "dmsetup table"
def cmdPmset : String := "pmset -g"
def cmdScreensaverIdle : String := "defaults read com.apple.screensaver idleTime"
def cmdRegScreenSave : String := "reg query \"HKEY_CURRENT_USER\\Control Panel\\Desktop\" /v ScreenSaveTimeOut"
def cmdPowercfg : String := "powercfg /query SCHEME_CURRENT SUB_VIDEO VIDEOIDLE"
def cmdGsIdleActivation : String := "gsettings get org.gnome.desktop.screensaver idle-activation-enabled"
def cmdGsIdleDelay : String := "gsettings get org.gnome.desktop.screensaver idle-delay"
def cmdDsclReadGuest : String := "dscl . -read /Users/Guest"
def cmdDsclListUsers : String := "dscl . -list /Users"
def cmdNetUserGuest : String := "net user guest"
def cmdGetentPasswd : String := "getent passwd guest"
def cmdGetentShadow : String := "getent shadow guest"

/-- Every command string any probe consults. -/
def allCommands : List String :=
  [cmdAlfGlobalstate, cmdPgrepSff, cmdNetshProfiles, cmdPsFwProfiles,
   cmdUfwStatus, cmdIptables, cmdFirewallCmd, cmdFdesetup, cmdManageBde,
   cmdLsblk, cmdProcMounts, cmdDmsetup, cmdPmset, cmdScreensaverIdle,
   cmdRegScreenSave, cmdPowercfg, cmdGsIdleActivation, cmdGsIdleDelay,
   cmdDsclReadGuest, cmdDsclListUsers, cmdNetUserGuest, cmdGetentPasswd,
   cmdGetentShadow]

/-! ## Firewall probes -/

/-- Remediation text shared by the Windows firewall failure branches. -/
def winFwRem : String := "Enable Windows Defender Firewall: Control Panel > System and Security > Windows Defender Firewall > Turn Windows Defender Firewall on or off"

/-- `_check_windows_firewall` as a function of the `netsh` and PowerShell
command results. -/
def windowsFirewallFrom (netsh ps : Bool × String) : CheckResult :=
  if netsh.1 then
    let out := netsh.2
    let domainEnabled := strContains out "Domain Profile" && strContains out "State" && strContains out "ON"
    let privateEnabled := strContains out "Private Profile" && strContains out "State" && strContains out "ON"
    let publicEnabled := strContains out "Public Profile" && strContains out "State" && strContains out "ON"
    if domainEnabled && privateEnabled && publicEnabled then
      ⟨true, "Windows Defender Firewall is enabled for all profiles", some ""⟩
    else
      let disabled := (if !domainEnabled then ["Domain"] else []) ++
        (if !privateEnabled then ["Private"] else []) ++
        (if !publicEnabled then ["Public"] else [])
      ⟨false, "Windows Defender Firewall is disabled for: " ++ String.intercalate ", " disabled,
        some winFwRem⟩
  else if ps.1 then
    if strCountSub ps.2 "True" ≥ 3 then
      ⟨true, "Windows Defender Firewall is enabled", some ""⟩
    else
      ⟨false, "Windows Defender Firewall is not fully enabled", some winFwRem⟩
  else
    ⟨false, "Unable to check firewall status", some winFwRem⟩

/-- `_check_macos_firewall` as a function of the `defaults` and `pgrep`
command results.  A `ValueError` from `int()` is the `none` case of
`pyInt?` and falls through to the `pgrep` fallback, as in the source. -/
def macosFirewallFrom (d p : Bool × String) : CheckResult :=
  let primary : Option CheckResult :=
    if d.1 then
      match pyInt? (pyStrip d.2) with
      | some st =>
        if st = 1 then some ⟨true, "macOS firewall is enabled", some ""⟩
        else if st = 2 then some ⟨true, "macOS firewall is enabled (strict mode)", some ""⟩
        else some ⟨false, "macOS firewall is disabled",
          some "Enable macOS firewall: System Preferences > Security & Privacy > Firewall > Turn On Firewall"⟩
      | none => none
    else none
  match primary with
  | some r => r
  | none =>
    if p.1 && !strIsEmpty (pyStrip p.2) then
      ⟨true, "macOS firewall appears to be running", some ""⟩
    else
      ⟨false, "Unable to verify firewall status (insufficient permissions)",
        some "Please manually verify firewall is enabled: System Preferences > Security & Privacy > Firewall"⟩

/-- Remediation of the no-firewall-found branch of `_check_linux_firewall`,
giving the install/enable commands for both distribution families. -/
def linuxFwInstallRem : String := "Install and configure a firewall: For Ubuntu/Debian: \"sudo apt install ufw && sudo ufw enable\", For CentOS/RHEL: \"sudo yum install firewalld && sudo systemctl start firewalld && sudo systemctl enable firewalld\""

/-- The rule counter of `_check_linux_firewall`: lines of the stripped
`iptables -L -n` output that are non-blank and start with neither
`Chain` nor `target`. -/
def iptablesRuleCount (out : String) : Nat :=
  ((pySplitChar '\n' (pyStrip out)).filter
    (fun line => !strIsEmpty (pyStrip line) && !strStartsWith line "Chain" && !strStartsWith line "target")).length

/-- Whether the UFW step of `_check_linux_firewall` produces a verdict:
the command succeeded and its output carries one of the two status
markers.  When it does, the later steps are never consulted. -/
def ufwDecided (u : Bool × String) : Bool :=
  u.1 && (strContains u.2 "Status: active" || strContains u.2 "Status: inactive")

/-- `_check_linux_firewall` as a function of the UFW, iptables and
firewalld command results, tried in that order. -/
def linuxFirewallFrom (u i f : Bool × String) : CheckResult :=
  if u.1 && strContains u.2 "Status: active" then
    ⟨true, "UFW firewall is active", some ""⟩
  else if u.1 && strContains u.2 "Status: inactive" then
    ⟨false, "UFW firewall is inactive", some "Enable UFW firewall: Run \"sudo ufw enable\" in terminal"⟩
  else if i.1 then
    if iptablesRuleCount i.2 > 0 then
      ⟨true, "iptables firewall rules are configured", some ""⟩
    else
      ⟨false, "No iptables firewall rules found",
        some "Configure iptables firewall: Install and configure UFW (\"sudo apt install ufw && sudo ufw enable\") or set up iptables rules manually"⟩
  else if f.1 then
    if strContains (strLower f.2) "running" then
      ⟨true, "firewalld is running", some ""⟩
    else
      ⟨false, "firewalld is not running",
        some "Start firewalld: Run \"sudo systemctl start firewalld && sudo systemctl enable firewalld\" in terminal"⟩
  else
    ⟨false, "No firewall found or unable to check status", some linuxFwInstallRem⟩

def macosFirewall (env : Env) : CheckResult :=
  macosFirewallFrom (env.run cmdAlfGlobalstate) (env.run cmdPgrepSff)

def windowsFirewall (env : Env) : CheckResult :=
  windowsFirewallFrom (env.run cmdNetshProfiles) (env.run cmdPsFwProfiles)

def linuxFirewall (env : Env) : CheckResult :=
  linuxFirewallFrom (env.run cmdUfwStatus) (env.run cmdIptables) (env.run cmdFirewallCmd)

/-! ## Disk-encryption probes -/

/-- `_check_macos_encryption` from the `fdesetup status` result. -/
def macosEncryptionFrom (s : Bool × String) : CheckResult :=
  if s.1 && strContains s.2 "FileVault is On" then
    ⟨true, "FileVault encryption is enabled", some ""⟩
  else
    ⟨false, "FileVault encryption is not enabled",
      some "Enable FileVault encryption: System Preferences > Security & Privacy > FileVault > Turn On FileVault"⟩

/-- Remediation text shared by the Windows BitLocker failure branches. -/
def winEncRem : String := "Enable BitLocker encryption: Control Panel > System and Security > BitLocker Drive Encryption > Turn on BitLocker"

/-- `_check_windows_encryption` from the `manage-bde -status` result. -/
def windowsEncryptionFrom (s : Bool × String) : CheckResult :=
  if s.1 then
    if strContains s.2 "Protection On" then
      ⟨true, "BitLocker encryption is enabled", some ""⟩
    else
      ⟨false, "BitLocker encryption is not enabled", some winEncRem⟩
  else
    ⟨false, "Unable to check BitLocker status", some winEncRem⟩

/-- `_check_linux_encryption` from the `lsblk`, `/proc/mounts` and
`dmsetup table` results. -/
def linuxEncryptionFrom (lsb mnt dmt : Bool × String) : CheckResult :=
  if lsb.1 && strContains lsb.2 "crypto_LUKS" then
    ⟨true, "LUKS encryption detected", some ""⟩
  else if mnt.1 && (strContains mnt.2 "/dev/mapper/" || strContains mnt.2 "dm-") &&
      dmt.1 && strContains dmt.2 "crypt" then
    ⟨true, "Disk encryption detected", some ""⟩
  else
    ⟨false, "No disk encryption detected",
      some "Enable disk encryption: Use LUKS encryption during OS installation or encrypt existing partitions with \"cryptsetup luksFormat /dev/sdX\" (WARNING: This will destroy data - backup first!)"⟩

def macosEncryption (env : Env) : CheckResult := macosEncryptionFrom (env.run cmdFdesetup)

def windowsEncryption (env : Env) : CheckResult := windowsEncryptionFrom (env.run cmdManageBde)

def linuxEncryption (env : Env) : CheckResult :=
  linuxEncryptionFrom (env.run cmdLsblk) (env.run cmdProcMounts) (env.run cmdDmsetup)

/-! ## Autolock probes -/

/-- Remediation text shared by the macOS autolock fallback failure branches. -/
def macAutolockRem : String := "Configure screen lock timeout: System Preferences > Security & Privacy > General > Require password after sleep or screen saver begins"

/-- `_check_macos_autolock` from the `pmset -g` and screensaver
`defaults` results.  The `ValueError` branch of `int(output)` reaches the
outer exception handler of the source. -/
def macosAutolockFrom (pm ss : Bool × String) : CheckResult :=
  let primary : Option CheckResult :=
    if pm.1 then
      match findWordNum "displaysleep" pm.2 with
      | some ds =>
        if ds ≤ 10 then
          some ⟨true, "Display sleep timeout: " ++ toString ds ++ " minutes", some ""⟩
        else
          some ⟨false, "Display sleep timeout too long: " ++ toString ds ++ " minutes",
            some "Set display sleep timeout to 10 minutes or less: System Preferences > Energy Saver > Display Sleep"⟩
      | none => none
    else none
  match primary with
  | some r => r
  | none =>
    if ss.1 then
      match pyInt? ss.2 with
      | some it =>
        if it ≤ 600 then
          ⟨true, "Screen saver timeout: " ++ toString (Int.fdiv it 60) ++ " minutes", some ""⟩
        else
          ⟨false, "Screen saver timeout too long: " ++ toString (Int.fdiv it 60) ++ " minutes",
            some "Set screen saver timeout to 10 minutes or less: System Preferences > Desktop & Screen Saver > Screen Saver > Start after"⟩
      | none => ⟨false, "Error checking autolock: " ++ pyIntErr ss.2, some macAutolockRem⟩
    else
      ⟨false, "Unable to determine screen lock timeout", some macAutolockRem⟩

/-- The final result of `_check_windows_autolock` when neither strategy
short-circuits. -/
def winAutolockNotConfigured : CheckResult :=
  ⟨false, "Screen lock not configured properly",
    some "Configure screen lock: Control Panel > Personalization > Screen Saver > Wait (set to 10 minutes or less) and check \"On resume, display logon screen\""⟩

/-- `_check_windows_autolock` from the registry query and `powercfg`
results.  A hexadecimal video-idle reading only short-circuits when it is
strictly positive and at most 600; otherwise control falls through to the
final non-compliant result. -/
def windowsAutolockFrom (rg pc : Bool × String) : CheckResult :=
  let regRes : Option CheckResult :=
    if rg.1 then
      match findRegTimeout rg.2 with
      | some t =>
        if t ≤ 600 then
          some ⟨true, "Screen lock timeout: " ++ toString (t / 60) ++ " minutes", some ""⟩
        else
          some ⟨false, "Screen lock timeout too long: " ++ toString (t / 60) ++ " minutes",
            some "Set screen lock timeout to 10 minutes or less: Control Panel > Personalization > Screen Saver > Wait"⟩
      | none => none
    else none
  match regRes with
  | some r => r
  | none =>
    let pcRes : Option CheckResult :=
      if pc.1 then
        match findAcHex pc.2 with
        | some t =>
          if 0 < t ∧ t ≤ 600 then
            some ⟨true, "Display timeout: " ++ toString (t / 60) ++ " minutes", some ""⟩
          else none
        | none => none
      else none
    match pcRes with
    | some r => r
    | none => winAutolockNotConfigured

/-- Remediation text shared by the Linux autolock failure branches. -/
def linuxAutolockRem : String := "Configure screen lock: For GNOME: Settings > Privacy > Screen Lock, For KDE: System Settings > Desktop Behavior > Screen Locking"

/-- `_check_linux_autolock` from the two `gsettings` results and the KDE
screen-locker configuration file observation. -/
def linuxAutolockFrom (ga gd : Bool × String) (kde : Option String) : CheckResult :=
  let gnome : Option CheckResult :=
    if ga.1 && strContains (strLower ga.2) "true" then
      if gd.1 then
        match pyInt? (pyStrip gd.2) with
        | some t =>
          if t ≤ 600 then
            some ⟨true, "Screen lock timeout: " ++ toString (Int.fdiv t 60) ++ " minutes", some ""⟩
          else
            some ⟨false, "Screen lock timeout too long: " ++ toString (Int.fdiv t 60) ++ " minutes",
              some "Set screen lock timeout to 10 minutes or less: Settings > Privacy > Screen Lock > Blank screen delay"⟩
        | none => some ⟨false, "Error checking autolock: " ++ pyIntErr (pyStrip gd.2), some linuxAutolockRem⟩
      else none
    else none
  match gnome with
  | some r => r
  | none =>
    let kdeRes : Option CheckResult :=
      match kde with
      | some content =>
        if strContains content "Timeout=" then
          match findKdeTimeout content with
          | some t =>
            if t ≤ 10 then
              some ⟨true, "Screen lock timeout: " ++ toString t ++ " minutes", some ""⟩
            else
              some ⟨false, "Screen lock timeout too long: " ++ toString t ++ " minutes",
                some "Set screen lock timeout to 10 minutes or less: System Settings > Desktop Behavior > Screen Locking > Lock screen automatically after"⟩
          | none => none
        else none
      | none => none
    match kdeRes with
    | some r => r
    | none => ⟨false, "Screen lock not configured", some linuxAutolockRem⟩

def macosAutolock (env : Env) : CheckResult :=
  macosAutolockFrom (env.run cmdPmset) (env.run cmdScreensaverIdle)

def windowsAutolock (env : Env) : CheckResult :=
  windowsAutolockFrom (env.run cmdRegScreenSave) (env.run cmdPowercfg)

def linuxAutolock (env : Env) : CheckResult :=
  linuxAutolockFrom (env.run cmdGsIdleActivation) (env.run cmdGsIdleDelay) env.kdeConfig

/-! ## Guest-account probes -/

/-- `_check_macos_guest_accounts` from the `dscl` read and list results. -/
def macosGuestFrom (rd ls : Bool × String) : CheckResult :=
  if rd.1 then
    ⟨false, "Guest account is enabled",
      some "Disable guest account: System Preferences > Users & Groups > Guest User > Allow guests to log in to this computer (uncheck)"⟩
  else if ls.1 && strContains ls.2 "Guest" then
    ⟨false, "Guest account may be enabled",
      some "Please verify guest account is disabled: System Preferences > Users & Groups > Guest User"⟩
  else
    ⟨true, "Guest account appears to be disabled", some ""⟩

/-- `_check_windows_guest_accounts` from the `net user guest` result. -/
def windowsGuestFrom (nu : Bool × String) : CheckResult :=
  if nu.1 then
    if strContains nu.2 "Account active" && strContains nu.2 "No" then
      ⟨true, "Guest account is disabled", some ""⟩
    else
      ⟨false, "Guest account is enabled",
        some "Disable guest account: Run \"net user guest /active:no\" as administrator or Control Panel > User Accounts > Manage another account > Guest > Turn off guest account"⟩
  else
    ⟨true, "Guest account not found (disabled)", some ""⟩

/-- `_check_linux_guest_accounts` from the `getent passwd` and
`getent shadow` results.  The missing-field case of
`shadow_output.split(':')[1]` is the `IndexError` the outer handler
converts to the unable-to-verify result. -/
def linuxGuestFrom (pw sh : Bool × String) : CheckResult :=
  if pw.1 then
    if sh.1 && !strIsEmpty sh.2 then
      match (pySplitChar ':' sh.2)[1]? with
      | some f1 =>
        if strStartsWith f1 "!" || strStartsWith f1 "*" then
          ⟨true, "Guest account is locked", some ""⟩
        else
          ⟨false, "Guest account is active",
            some "Lock guest account: Run \"sudo usermod -L guest\" or \"sudo passwd -l guest\" to lock the account"⟩
      | none =>
        ⟨false, "Unable to verify guest account status: list index out of range",
          some "Please manually verify no guest accounts exist or are locked"⟩
    else
      if strContains pw.2 "/bin/false" || strContains pw.2 "/usr/sbin/nologin" ||
          strContains pw.2 "/sbin/nologin" then
        ⟨true, "Guest account has login disabled", some ""⟩
      else
        ⟨false, "Guest account exists (unable to verify lock status)",
          some "Please verify guest account is locked: Run \"sudo passwd -S guest\" to check status"⟩
  else
    ⟨true, "No guest account found", some ""⟩

def macosGuest (env : Env) : CheckResult :=
  macosGuestFrom (env.run cmdDsclReadGuest) (env.run cmdDsclListUsers)

def windowsGuest (env : Env) : CheckResult := windowsGuestFrom (env.run cmdNetUserGuest)

def linuxGuest (env : Env) : CheckResult :=
  linuxGuestFrom (env.run cmdGetentPasswd) (env.run cmdGetentShadow)

/-! ## Dispatchers and the engine -/

/-- `check_os_firewall`: dispatch on `platform.system().lower()`. -/
def checkOsFirewall (sys : String) (env : Env) : CheckResult :=
  if sys = "darwin" then macosFirewall env
  else if sys = "windows" then windowsFirewall env
  else if sys = "linux" then linuxFirewall env
  else ⟨false, "Unsupported platform: " ++ sys, none⟩

/-- `check_disk_encryption`. -/
def checkDiskEncryption (sys : String) (env : Env) : CheckResult :=
  if sys = "darwin" then macosEncryption env
  else if sys = "windows" then windowsEncryption env
  else if sys = "linux" then linuxEncryption env
  else ⟨false, "Unsupported platform: " ++ sys, none⟩

/-- `check_autolock`. -/
def checkAutolock (sys : String) (env : Env) : CheckResult :=
  if sys = "darwin" then macosAutolock env
  else if sys = "windows" then windowsAutolock env
  else if sys = "linux" then linuxAutolock env
  else ⟨false, "Unsupported platform: " ++ sys, none⟩

/-- `check_guest_accounts`. -/
def checkGuestAccounts (sys : String) (env : Env) : CheckResult :=
  if sys = "darwin" then macosGuest env
  else if sys = "windows" then windowsGuest env
  else if sys = "linux" then linuxGuest env
  else ⟨false, "Unsupported platform: " ++ sys, none⟩

/-- `run_all_checks`: the four fixed keys in insertion order, each mapped
to its dispatcher's result. -/
def runAllChecks (sys : String) (env : Env) : List (String × CheckResult) :=
  [("os_firewall", checkOsFirewall sys env),
   ("disk_encryption", checkDiskEncryption sys env),
   ("autolock", checkAutolock sys env),
   ("guest_accounts", checkGuestAccounts sys env)]

/-! ## Concrete environments and command outputs used by the theorems -/

/-- Environment in which every command fails and the KDE configuration
file is absent. -/
def envFail : Env := ⟨fun _ => (false, ""), none⟩

/-- A `netsh advfirewall show allprofiles state` output in which the
Private profile is OFF while Domain and Public are ON. -/
def c1NetshOut : String := "Domain Profile Settings:\n----------------------------------------------------------------------\nState                                 ON\n\nPrivate Profile Settings:\n----------------------------------------------------------------------\nState                                 OFF\n\nPublic Profile Settings:\n----------------------------------------------------------------------\nState                                 ON\n\nOk."

/-- A `net user guest` response whose active-flag reads `Yes` (the
account is enabled); the substring `No` still occurs, inside `*None`. -/
def c4NetUserOut : String := "User name                    Guest\nAccount active               Yes\nAccount expires              Never\n\nLocal Group Memberships      *Guests\nGlobal Group memberships     *None\nThe command completed successfully."

/-- A registry query response carrying a 900-second screen-saver
timeout: a reading, but not a passing one. -/
def c7RegOut : String := "    ScreenSaveTimeOut    REG_SZ    900"

/-- A command-result function under which every invocation fails. -/
def c9Run : String → Bool × String := fun _ => (false, "")

/-- Two environments that agree on every command invocation but observe
different KDE screen-locker configuration files. -/
def c9EnvA : Env := ⟨c9Run, some "Timeout=5"⟩

def c9EnvB : Env := ⟨c9Run, some "Timeout=50"⟩

/-- A command-result function extensionally equal to `c9Run` on every
command the checker issues, but not syntactically identical to it. -/
def c9RunW : String → Bool × String := fun c => if c = "some other command" then (true, "x") else (false, "")

def c9EnvWA : Env := ⟨c9Run, none⟩

def c9EnvWB : Env := ⟨c9RunW, none⟩

/-! ## Well-formedness of results -/

/-- The result contract of the spec for supported platforms: non-empty
message, a remediation field present, and the remediation empty exactly
when the check passes. -/
def wfRes (r : CheckResult) : Prop :=
  r.message ≠ "" ∧ r.remediation.isSome = true ∧ (r.remediation = some "" ↔ r.status = true)

instance (r : CheckResult) : Decidable (wfRes r) := by
  unfold wfRes; infer_instance

lemma data_append (s t : String) : (s ++ t).data = s.data ++ t.data := by
  cases s; cases t; rfl

lemma append_ne_empty (s t : String) (h : s.data ≠ []) : s ++ t ≠ "" := by
  intro he
  apply h
  have h2 := congrArg String.data he
  rw [data_append] at h2
  exact (List.append_eq_nil.mp h2).1

lemma data_append_ne (s t : String) (h : s.data ≠ []) : (s ++ t).data ≠ [] := by
  rw [data_append]
  intro he
  exact h (List.append_eq_nil.mp he).1

lemma wfRes_pass (msg : String) (h : msg ≠ "") : wfRes ⟨true, msg, some ""⟩ :=
  ⟨h, rfl, by simp⟩

lemma wfRes_fail (msg rem : String) (h : msg ≠ "") (h2 : rem ≠ "") :
    wfRes ⟨false, msg, some rem⟩ := by
  refine ⟨h, rfl, ?_⟩
  simp [h2]

lemma wfRes_pass1 (pre dyn : String) (h : pre.data ≠ []) :
    wfRes ⟨true, pre ++ dyn, some ""⟩ :=
  wfRes_pass _ (append_ne_empty _ _ h)

lemma wfRes_fail1 (pre dyn rem : String) (h : pre.data ≠ []) (h2 : rem ≠ "") :
    wfRes ⟨false, pre ++ dyn, some rem⟩ :=
  wfRes_fail _ _ (append_ne_empty _ _ h) h2

lemma wfRes_pass2 (pre dyn post : String) (h : pre.data ≠ []) :
    wfRes ⟨true, pre ++ dyn ++ post, some ""⟩ :=
  wfRes_pass _ (append_ne_empty _ _ (data_append_ne _ _ h))

lemma wfRes_fail2 (pre dyn post rem : String) (h : pre.data ≠ []) (h2 : rem ≠ "") :
    wfRes ⟨false, pre ++ dyn ++ post, some rem⟩ :=
  wfRes_fail _ _ (append_ne_empty _ _ (data_append_ne _ _ h)) h2

lemma wf_macosFirewallFrom (d p : Bool × String) : wfRes (macosFirewallFrom d p) := by
  unfold macosFirewallFrom
  repeat' split
  all_goals decide

lemma wf_windowsFirewallFrom (netsh ps : Bool × String) : wfRes (windowsFirewallFrom netsh ps) := by
  unfold windowsFirewallFrom
  dsimp only
  repeat' split
  all_goals decide

lemma wf_linuxFirewallFrom (u i f : Bool × String) : wfRes (linuxFirewallFrom u i f) := by
  unfold linuxFirewallFrom
  repeat' split
  all_goals decide

lemma wf_macosEncryptionFrom (s : Bool × String) : wfRes (macosEncryptionFrom s) := by
  unfold macosEncryptionFrom
  repeat' split
  all_goals decide

lemma wf_windowsEncryptionFrom (s : Bool × String) : wfRes (windowsEncryptionFrom s) := by
  unfold windowsEncryptionFrom
  repeat' split
  all_goals decide

lemma wf_linuxEncryptionFrom (lsb mnt dmt : Bool × String) :
    wfRes (linuxEncryptionFrom lsb mnt dmt) := by
  unfold linuxEncryptionFrom
  repeat' split
  all_goals decide

lemma wf_macosAutolockFrom (pm ss : Bool × String) : wfRes (macosAutolockFrom pm ss) := by
  unfold macosAutolockFrom
  repeat' split
  all_goals first
    | decide
    | exact wfRes_pass2 _ _ _ (by decide)
    | exact wfRes_fail2 _ _ _ _ (by decide) (by decide)
    | exact wfRes_fail1 _ _ _ (by decide) (by decide)

lemma wf_windowsAutolockFrom (rg pc : Bool × String) : wfRes (windowsAutolockFrom rg pc) := by
  unfold windowsAutolockFrom
  repeat' split
  all_goals first
    | decide
    | exact wfRes_pass2 _ _ _ (by decide)
    | exact wfRes_fail2 _ _ _ _ (by decide) (by decide)

lemma wf_linuxAutolockFrom (ga gd : Bool × String) (kde : Option String) :
    wfRes (linuxAutolockFrom ga gd kde) := by
  unfold linuxAutolockFrom
  repeat' split
  all_goals first
    | decide
    | exact wfRes_pass2 _ _ _ (by decide)
    | exact wfRes_fail2 _ _ _ _ (by decide) (by decide)
    | exact wfRes_fail1 _ _ _ (by decide) (by decide)

lemma wf_macosGuestFrom (rd ls : Bool × String) : wfRes (macosGuestFrom rd ls) := by
  unfold macosGuestFrom
  repeat' split
  all_goals decide

lemma wf_windowsGuestFrom (nu : Bool × String) : wfRes (windowsGuestFrom nu) := by
  unfold windowsGuestFrom
  repeat' split
  all_goals decide

lemma wf_linuxGuestFrom (pw sh : Bool × String) : wfRes (linuxGuestFrom pw sh) := by
  unfold linuxGuestFrom
  repeat' split
  all_goals decide

lemma runAll_darwin (env : Env) : runAllChecks "darwin" env =
    [("os_firewall", macosFirewall env), ("disk_encryption", macosEncryption env),
     ("autolock", macosAutolock env), ("guest_accounts", macosGuest env)] := rfl

lemma runAll_windows (env : Env) : runAllChecks "windows" env =
    [("os_firewall", windowsFirewall env), ("disk_encryption", windowsEncryption env),
     ("autolock", windowsAutolock env), ("guest_accounts", windowsGuest env)] := rfl

lemma runAll_linux (env : Env) : runAllChecks "linux" env =
    [("os_firewall", linuxFirewall env), ("disk_encryption", linuxEncryption env),
     ("autolock", linuxAutolock env), ("guest_accounts", linuxGuest env)] := rfl

/-! ## Claims -/

/-- Claim C1: the spec requires the primary Windows firewall strategy to
report non-compliant whenever at least one profile state is OFF while the
others are ON, naming the disabled profiles.  The source instead tests
the substrings `Domain Profile` / `Private Profile` / `Public Profile`,
`State` and `ON` globally over the whole output, so the exhibited output
with the Private profile OFF (and hence `ON` present elsewhere) is
reported as enabled for all profiles: the code contradicts the claim. -/
theorem C1_partial_off_reported_enabled :
    windowsFirewallFrom (true, c1NetshOut) (false, "") =
      ⟨true, "Windows Defender Firewall is enabled for all profiles", some ""⟩ ∧
    strContains c1NetshOut "State                                 OFF" = true ∧
    strContains c1NetshOut "Private Profile" = true := by decide

/-- Claim C2 (counterexample): on an unsupported platform family the
produced results carry no remediation field at all, refuting the claim
that every value of the report has one. -/
theorem C2_unsupported_missing_remediation :
    ("os_firewall", checkOsFirewall "sunos" envFail) ∈ runAllChecks "sunos" envFail ∧
    (checkOsFirewall "sunos" envFail).remediation = none := by decide

/-- Claim C2 (amended): for every platform family and every set of
command outcomes the report has exactly the four keys, in order; on the
three supported families every result is well-formed (non-empty message,
remediation field present, remediation empty iff the check passes); on an
unsupported family every result is failing with a non-empty message but
carries no remediation field. -/
theorem C2_report_wellformed :
    ∀ (sys : String) (env : Env),
      (runAllChecks sys env).map Prod.fst =
        ["os_firewall", "disk_encryption", "autolock", "guest_accounts"] ∧
      ((sys = "darwin" ∨ sys = "windows" ∨ sys = "linux") →
        ∀ pr ∈ runAllChecks sys env, wfRes pr.2) ∧
      (sys ≠ "darwin" → sys ≠ "windows" → sys ≠ "linux" →
        ∀ pr ∈ runAllChecks sys env,
          pr.2.status = false ∧ pr.2.message ≠ "" ∧ pr.2.remediation = none) := by
  intro sys env
  refine ⟨rfl, ?_, ?_⟩
  · rintro (rfl | rfl | rfl) pr hpr
    · rw [runAll_darwin] at hpr
      simp only [List.mem_cons, List.not_mem_nil, or_false] at hpr
      rcases hpr with rfl | rfl | rfl | rfl
      · exact wf_macosFirewallFrom _ _
      · exact wf_macosEncryptionFrom _
      · exact wf_macosAutolockFrom _ _
      · exact wf_macosGuestFrom _ _
    · rw [runAll_windows] at hpr
      simp only [List.mem_cons, List.not_mem_nil, or_false] at hpr
      rcases hpr with rfl | rfl | rfl | rfl
      · exact wf_windowsFirewallFrom _ _
      · exact wf_windowsEncryptionFrom _
      · exact wf_windowsAutolockFrom _ _
      · exact wf_windowsGuestFrom _
    · rw [runAll_linux] at hpr
      simp only [List.mem_cons, List.not_mem_nil, or_false] at hpr
      rcases hpr with rfl | rfl | rfl | rfl
      · exact wf_linuxFirewallFrom _ _ _
      · exact wf_linuxEncryptionFrom _ _ _
      · exact wf_linuxAutolockFrom _ _ _
      · exact wf_linuxGuestFrom _ _
  · intro h1 h2 h3 pr hpr
    simp only [runAllChecks, checkOsFirewall, checkDiskEncryption, checkAutolock,
      checkGuestAccounts, if_neg h1, if_neg h2, if_neg h3,
      List.mem_cons, List.not_mem_nil, or_false] at hpr
    rcases hpr with rfl | rfl | rfl | rfl <;>
      exact ⟨rfl, append_ne_empty _ _ (by decide), rfl⟩

/-- Witness for C2 (amended), on Windows with every command failing. -/
theorem C2_report_wellformed_witness :
    (runAllChecks "windows" envFail).map Prod.fst =
      ["os_firewall", "disk_encryption", "autolock", "guest_accounts"] ∧
    wfRes (checkOsFirewall "windows" envFail) := by
  have h := C2_report_wellformed "windows" envFail
  exact ⟨h.1, h.2.1 (Or.inr (Or.inl rfl)) _ (List.mem_cons_self _ _)⟩

/-- Claim C3: on a platform family that is none of macOS, Windows or
Linux, every one of the four checks returns status false with the
message `Unsupported platform: ` followed by the platform name, and the
engine still produces the full four-key report. -/
theorem C3_unsupported_all_checks :
    ∀ (sys : String) (env : Env), sys ≠ "darwin" → sys ≠ "windows" → sys ≠ "linux" →
      runAllChecks sys env =
        [("os_firewall", ⟨false, "Unsupported platform: " ++ sys, none⟩),
         ("disk_encryption", ⟨false, "Unsupported platform: " ++ sys, none⟩),
         ("autolock", ⟨false, "Unsupported platform: " ++ sys, none⟩),
         ("guest_accounts", ⟨false, "Unsupported platform: " ++ sys, none⟩)] := by
  intro sys env h1 h2 h3
  simp only [runAllChecks, checkOsFirewall, checkDiskEncryption, checkAutolock,
    checkGuestAccounts, if_neg h1, if_neg h2, if_neg h3]

/-- Witness for C3 at the platform name `freebsd`. -/
theorem C3_unsupported_all_checks_witness :
    runAllChecks "freebsd" envFail =
      [("os_firewall", ⟨false, "Unsupported platform: " ++ "freebsd", none⟩),
       ("disk_encryption", ⟨false, "Unsupported platform: " ++ "freebsd", none⟩),
       ("autolock", ⟨false, "Unsupported platform: " ++ "freebsd", none⟩),
       ("guest_accounts", ⟨false, "Unsupported platform: " ++ "freebsd", none⟩)] :=
  C3_unsupported_all_checks "freebsd" envFail (by decide) (by decide) (by decide)

/-- Claim C4: the spec requires non-compliance for every successful
`net user guest` response whose active-flag is not `No`.  The source
instead tests the substrings `Account active` and `No` independently
anywhere in the output, so the exhibited response with
`Account active  Yes` (and `No` occurring only inside `*None`) is
reported compliant as a disabled guest account: the code contradicts the
claim. -/
theorem C4_active_guest_reported_disabled :
    windowsGuestFrom (true, c4NetUserOut) = ⟨true, "Guest account is disabled", some ""⟩ ∧
    strContains c4NetUserOut "Account active               Yes" = true := by decide

/-- Claim C5: the Linux guest-account check is compliant when the
account is absent; compliant when the shadow password field starts with
a lock marker; compliant when the shadow entry is unreadable but the
passwd output names a disabled shell; and non-compliant with the
manual-verification message when the shadow entry is unreadable and no
disabled shell is named. -/
theorem C5_linux_guest_account :
    (∀ pw sh : Bool × String, pw.1 = false →
      linuxGuestFrom pw sh = ⟨true, "No guest account found", some ""⟩) ∧
    (∀ (pw sh : Bool × String) (f1 : String), pw.1 = true → sh.1 = true →
      strIsEmpty sh.2 = false → (pySplitChar ':' sh.2)[1]? = some f1 →
      (strStartsWith f1 "!" || strStartsWith f1 "*") = true →
      linuxGuestFrom pw sh = ⟨true, "Guest account is locked", some ""⟩) ∧
    (∀ pw sh : Bool × String, pw.1 = true → (sh.1 && !strIsEmpty sh.2) = false →
      (strContains pw.2 "/bin/false" || strContains pw.2 "/usr/sbin/nologin" ||
        strContains pw.2 "/sbin/nologin") = true →
      linuxGuestFrom pw sh = ⟨true, "Guest account has login disabled", some ""⟩) ∧
    (∀ pw sh : Bool × String, pw.1 = true → (sh.1 && !strIsEmpty sh.2) = false →
      (strContains pw.2 "/bin/false" || strContains pw.2 "/usr/sbin/nologin" ||
        strContains pw.2 "/sbin/nologin") = false →
      linuxGuestFrom pw sh =
        ⟨false, "Guest account exists (unable to verify lock status)",
          some "Please verify guest account is locked: Run \"sudo passwd -S guest\" to check status"⟩) := by
  refine ⟨?_, ?_, ?_, ?_⟩
  · intro pw sh h
    simp [linuxGuestFrom, h]
  · intro pw sh f1 h1 h2 h3 h4 h5
    simp [linuxGuestFrom, h1, h2, h3, h4, h5]
  · intro pw sh h1 h2 h3
    simp [linuxGuestFrom, h1, h2, h3]
  · intro pw sh h1 h2 h3
    simp [linuxGuestFrom, h1, h2, h3]

/-- Witness for C5: the four cases at concrete passwd/shadow outputs. -/
theorem C5_linux_guest_account_witness :
    linuxGuestFrom (false, "") (false, "") = ⟨true, "No guest account found", some ""⟩ ∧
    linuxGuestFrom (true, "guest:x:1001:1001:Guest:/home/guest:/bin/bash")
        (true, "guest:!:19000:0:99999:7:::") = ⟨true, "Guest account is locked", some ""⟩ ∧
    linuxGuestFrom (true, "guest:x:1001:1001:Guest:/home/guest:/usr/sbin/nologin") (false, "") =
      ⟨true, "Guest account has login disabled", some ""⟩ ∧
    linuxGuestFrom (true, "guest:x:1001:1001:Guest:/home/guest:/bin/bash") (false, "") =
      ⟨false, "Guest account exists (unable to verify lock status)",
        some "Please verify guest account is locked: Run \"sudo passwd -S guest\" to check status"⟩ :=
  ⟨C5_linux_guest_account.1 _ _ rfl,
   C5_linux_guest_account.2.1 _ _ "!" rfl rfl (by decide) (by decide) (by decide),
   C5_linux_guest_account.2.2.1 _ _ rfl (by decide) (by decide),
   C5_linux_guest_account.2.2.2 _ _ rfl (by decide) (by decide)⟩

/-- Claim C6: the Linux firewall check consults UFW, then iptables, then
firewalld, in that strict order: a UFW verdict makes the result
independent of the later command results, and a successful iptables
query makes it independent of firewalld; a successful iptables query
with no rule lines beyond the chain headers is a firm non-compliant
verdict; and when all three commands fail the result is non-compliant
with an unable-to-check message and a remediation naming the
Debian-family and RHEL-family install/enable commands. -/
theorem C6_linux_firewall :
    (∀ u i iB f fB : Bool × String, ufwDecided u = true →
      linuxFirewallFrom u i f = linuxFirewallFrom u iB fB) ∧
    (∀ u i f fB : Bool × String, ufwDecided u = false → i.1 = true →
      linuxFirewallFrom u i f = linuxFirewallFrom u i fB) ∧
    (∀ u i f : Bool × String, ufwDecided u = false → i.1 = true → iptablesRuleCount i.2 = 0 →
      linuxFirewallFrom u i f =
        ⟨false, "No iptables firewall rules found",
          some "Configure iptables firewall: Install and configure UFW (\"sudo apt install ufw && sudo ufw enable\") or set up iptables rules manually"⟩) ∧
    (∀ u i f : Bool × String, u.1 = false → i.1 = false → f.1 = false →
      linuxFirewallFrom u i f =
        ⟨false, "No firewall found or unable to check status", some linuxFwInstallRem⟩) ∧
    strContains linuxFwInstallRem "sudo apt install ufw && sudo ufw enable" = true ∧
    strContains linuxFwInstallRem
      "sudo yum install firewalld && sudo systemctl start firewalld && sudo systemctl enable firewalld" = true := by
  refine ⟨?_, ?_, ?_, ?_, by decide, by decide⟩
  · intro u i iB f fB h
    rcases Bool.and_eq_true _ _ |>.mp h with ⟨hu, hor⟩
    cases ha : strContains u.2 "Status: active" with
    | true => simp [linuxFirewallFrom, hu, ha]
    | false =>
      rw [ha, Bool.false_or] at hor
      simp [linuxFirewallFrom, hu, ha, hor]
  · intro u i f fB h hi
    cases hu : u.1 with
    | false => simp [linuxFirewallFrom, hu, hi]
    | true =>
      rw [ufwDecided, hu, Bool.true_and, Bool.or_eq_false_iff] at h
      simp [linuxFirewallFrom, hu, hi, h.1, h.2]
  · intro u i f h hi hc
    cases hu : u.1 with
    | false => simp [linuxFirewallFrom, hu, hi, hc]
    | true =>
      rw [ufwDecided, hu, Bool.true_and, Bool.or_eq_false_iff] at h
      simp [linuxFirewallFrom, hu, hi, hc, h.1, h.2]
  · intro u i f h1 h2 h3
    simp [linuxFirewallFrom, h1, h2, h3]

/-- Witness for C6: a deciding UFW output ignores the later results; an
iptables ruleset consisting only of chain headers is firmly
non-compliant; all commands failing yields the install guidance. -/
theorem C6_linux_firewall_witness :
    linuxFirewallFrom (true, "Status: active") (false, "") (false, "x") =
      linuxFirewallFrom (true, "Status: active") (true, "y") (true, "z") ∧
    linuxFirewallFrom (false, "")
        (true, "Chain INPUT (policy ACCEPT)\ntarget     prot opt source               destination\n\nChain FORWARD (policy ACCEPT)\ntarget     prot opt source               destination")
        (false, "") =
      ⟨false, "No iptables firewall rules found",
        some "Configure iptables firewall: Install and configure UFW (\"sudo apt install ufw && sudo ufw enable\") or set up iptables rules manually"⟩ ∧
    linuxFirewallFrom (false, "") (false, "") (false, "") =
      ⟨false, "No firewall found or unable to check status", some linuxFwInstallRem⟩ :=
  ⟨C6_linux_firewall.1 _ _ _ _ _ (by decide),
   C6_linux_firewall.2.2.1 _ _ _ (by decide) rfl (by decide),
   C6_linux_firewall.2.2.2.1 _ _ _ rfl rfl rfl⟩

/-- Claim C7 (counterexample): with a registry reading of 900 seconds
(not a passing reading) and a failing fallback, the check does return
status false, but with the too-long message, not the claimed
`Screen lock not configured properly`. -/
theorem C7_registry_nonpassing_message :
    windowsAutolockFrom (true, c7RegOut) (false, "") =
      ⟨false, "Screen lock timeout too long: 15 minutes",
        some "Set screen lock timeout to 10 minutes or less: Control Panel > Personalization > Screen Saver > Wait"⟩ ∧
    (windowsAutolockFrom (true, c7RegOut) (false, "")).message ≠
      "Screen lock not configured properly" ∧
    findRegTimeout c7RegOut = some 900 := by decide

/-- Claim C7 (amended): the power-configuration fallback accepts a
hexadecimal video-idle value t as compliant only when 0 < t and
t ≤ 600; a value of 0x0 falls through to the final non-compliant
result; and whenever the registry path yields no reading at all and the
fallback yields no passing reading, the check returns status false with
the message `Screen lock not configured properly`. -/
theorem C7_windows_autolock_hex_fallback :
    (∀ (rg pc : Bool × String) (t : Nat),
      (rg.1 = false ∨ findRegTimeout rg.2 = none) → pc.1 = true → findAcHex pc.2 = some t →
      0 < t → t ≤ 600 →
      windowsAutolockFrom rg pc =
        ⟨true, "Display timeout: " ++ toString (t / 60) ++ " minutes", some ""⟩) ∧
    (∀ rg pc : Bool × String,
      (rg.1 = false ∨ findRegTimeout rg.2 = none) → pc.1 = true → findAcHex pc.2 = some 0 →
      windowsAutolockFrom rg pc = winAutolockNotConfigured) ∧
    (∀ rg pc : Bool × String,
      (rg.1 = false ∨ findRegTimeout rg.2 = none) →
      (pc.1 = false ∨ findAcHex pc.2 = none ∨ findAcHex pc.2 = some 0 ∨
        (∃ t, findAcHex pc.2 = some t ∧ 600 < t)) →
      windowsAutolockFrom rg pc = winAutolockNotConfigured) := by
  refine ⟨?_, ?_, ?_⟩
  · intro rg pc t hreg hpc hfind ht1 ht2
    rcases hreg with h | h
    · simp [windowsAutolockFrom, h, hpc, hfind, ht1, ht2]
    · cases hu : rg.1 with
      | false => simp [windowsAutolockFrom, hu, hpc, hfind, ht1, ht2]
      | true => simp [windowsAutolockFrom, hu, h, hpc, hfind, ht1, ht2]
  · intro rg pc hreg hpc hfind
    rcases hreg with h | h
    · simp [windowsAutolockFrom, h, hpc, hfind]
    · cases hu : rg.1 with
      | false => simp [windowsAutolockFrom, hu, hpc, hfind]
      | true => simp [windowsAutolockFrom, hu, h, hpc, hfind]
  · intro rg pc hreg hpc
    have base : ∀ pcv : Option CheckResult,
        (if rg.1 = true then
          match findRegTimeout rg.2 with
          | some t =>
            if t ≤ 600 then
              some (⟨true, "Screen lock timeout: " ++ toString (t / 60) ++ " minutes", some ""⟩ : CheckResult)
            else
              some ⟨false, "Screen lock timeout too long: " ++ toString (t / 60) ++ " minutes",
                some "Set screen lock timeout to 10 minutes or less: Control Panel > Personalization > Screen Saver > Wait"⟩
          | none => none
        else none) = none := by
      intro pcv
      rcases hreg with h | h
      · simp [h]
      · cases hu : rg.1 with
        | false => simp [hu]
        | true => simp [hu, h]
    rcases hpc with h | h | h | ⟨t, hf, hgt⟩
    · rcases hreg with hr | hr
      · simp [windowsAutolockFrom, hr, h]
      · cases hu : rg.1 with
        | false => simp [windowsAutolockFrom, hu, h]
        | true => simp [windowsAutolockFrom, hu, hr, h]
    · rcases hreg with hr | hr
      · simp [windowsAutolockFrom, hr, h]
      · cases hu : rg.1 with
        | false => simp [windowsAutolockFrom, hu, h]
        | true => simp [windowsAutolockFrom, hu, hr, h]
    · rcases hreg with hr | hr
      · simp [windowsAutolockFrom, hr, h]
      · cases hu : rg.1 with
        | false => simp [windowsAutolockFrom, hu, h]
        | true => simp [windowsAutolockFrom, hu, hr, h]
    · have hnot : ¬ (0 < t ∧ t ≤ 600) := by omega
      rcases hreg with hr | hr
      · simp [windowsAutolockFrom, hr, hf, hnot]
      · cases hu : rg.1 with
        | false => simp [windowsAutolockFrom, hu, hf, hnot]
        | true => simp [windowsAutolockFrom, hu, hr, hf, hnot]

/-- Witness for C7 (amended): a 0x258 (600 second) reading passes with
the ten-minute message; a 0x0 reading falls through to the final
non-compliant result. -/
theorem C7_windows_autolock_hex_fallback_witness :
    windowsAutolockFrom (false, "") (true, "Current AC Power Setting Index: 0x258") =
      ⟨true, "Display timeout: " ++ toString (600 / 60) ++ " minutes", some ""⟩ ∧
    windowsAutolockFrom (false, "") (true, "Current AC Power Setting Index: 0x0") =
      winAutolockNotConfigured :=
  ⟨C7_windows_autolock_hex_fallback.1 _ _ 600 (Or.inl rfl) rfl (by decide) (by decide) (by decide),
   C7_windows_autolock_hex_fallback.2.1 _ _ (Or.inl rfl) rfl (by decide)⟩

/-- Claim C8: `run_command` is a total function of the command outcome:
its timeout bound is 30 seconds, it succeeds exactly on exit code 0, a
completed process yields the trimmed standard output, and a timeout or
subprocess error yields failure with the error text. -/
theorem C8_run_command_contract :
    commandTimeoutSeconds = 30 ∧
    (∀ o : CommandOutcome, (runCommandModel o).1 = true ↔ ∃ out, o = .completed 0 out) ∧
    (∀ (rc : Int) (out : String),
      runCommandModel (.completed rc out) = (decide (rc = 0), pyStrip out)) ∧
    (∀ m : String, runCommandModel (.timedOut m) = (false, m)) ∧
    (∀ m : String, runCommandModel (.subprocessErr m) = (false, m)) := by
  refine ⟨rfl, ?_, fun _ _ => rfl, fun _ => rfl, fun _ => rfl⟩
  intro o
  cases o with
  | completed rc out => simp [runCommandModel]
  | timedOut m => simp [runCommandModel]
  | subprocessErr m => simp [runCommandModel]

/-- Witness for C8: a zero exit trims and succeeds; a timeout fails with
the error text. -/
theorem C8_run_command_contract_witness :
    runCommandModel (.completed 0 "  ok  ") = (decide ((0 : Int) = 0), pyStrip "  ok  ") ∧
    runCommandModel (.timedOut "Command timed out after 30 seconds") =
      (false, "Command timed out after 30 seconds") :=
  ⟨C8_run_command_contract.2.2.1 0 "  ok  ",
   C8_run_command_contract.2.2.2.1 "Command timed out after 30 seconds"⟩

/-- Claim C9 (counterexample): two runs on Linux whose every command
invocation returns the same pair can still produce different reports,
because the autolock probe also reads the KDE screen-locker
configuration file, an external input that is not a command. -/
theorem C9_kde_file_breaks_determinism :
    c9EnvA.run = c9EnvB.run ∧
    runAllChecks "linux" c9EnvA ≠ runAllChecks "linux" c9EnvB :=
  ⟨rfl, by decide⟩

/-- Claim C9 (amended): the report is a deterministic function of the
platform family, the results of the command invocations, and the KDE
screen-locker configuration file observation: two runs agreeing on all
of these yield identical reports. -/
theorem C9_external_input_determinism :
    ∀ (sys : String) (env1 env2 : Env),
      (∀ c ∈ allCommands, env1.run c = env2.run c) →
      env1.kdeConfig = env2.kdeConfig →
      runAllChecks sys env1 = runAllChecks sys env2 := by
  intro sys env1 env2 h hk
  have e1 := h cmdAlfGlobalstate (by decide)
  have e2 := h cmdPgrepSff (by decide)
  have e3 := h cmdNetshProfiles (by decide)
  have e4 := h cmdPsFwProfiles (by decide)
  have e5 := h cmdUfwStatus (by decide)
  have e6 := h cmdIptables (by decide)
  have e7 := h cmdFirewallCmd (by decide)
  have e8 := h cmdFdesetup (by decide)
  have e9 := h cmdManageBde (by decide)
  have e10 := h cmdLsblk (by decide)
  have e11 := h cmdProcMounts (by decide)
  have e12 := h cmdDmsetup (by decide)
  have e13 := h cmdPmset (by decide)
  have e14 := h cmdScreensaverIdle (by decide)
  have e15 := h cmdRegScreenSave (by decide)
  have e16 := h cmdPowercfg (by decide)
  have e17 := h cmdGsIdleActivation (by decide)
  have e18 := h cmdGsIdleDelay (by decide)
  have e19 := h cmdDsclReadGuest (by decide)
  have e20 := h cmdDsclListUsers (by decide)
  have e21 := h cmdNetUserGuest (by decide)
  have e22 := h cmdGetentPasswd (by decide)
  have e23 := h cmdGetentShadow (by decide)
  simp only [runAllChecks, checkOsFirewall, checkDiskEncryption, checkAutolock,
    checkGuestAccounts, macosFirewall, windowsFirewall, linuxFirewall, macosEncryption,
    windowsEncryption, linuxEncryption, macosAutolock, windowsAutolock, linuxAutolock,
    macosGuest, windowsGuest, linuxGuest, e1, e2, e3, e4, e5, e6, e7, e8, e9, e10, e11, e12,
    e13, e14, e15, e16, e17, e18, e19, e20, e21, e22, e23, hk]

/-- Witness for C9 (amended): two syntactically different command-result
functions that agree on every issued command yield the same report. -/
theorem C9_external_input_determinism_witness :
    runAllChecks "linux" c9EnvWA = runAllChecks "linux" c9EnvWB :=
  C9_external_input_determinism "linux" c9EnvWA c9EnvWB (by decide) rfl

/-- Claim C10: on macOS a pmset output whose displaysleep value parses
as 0 is treated as compliant (0 ≤ 10), with a passing result and empty
remediation. -/
theorem C10_displaysleep_zero_compliant :
    ∀ pm ss : Bool × String, pm.1 = true → findWordNum "displaysleep" pm.2 = some 0 →
      macosAutolockFrom pm ss = ⟨true, "Display sleep timeout: 0 minutes", some ""⟩ := by
  intro pm ss h1 h2
  simp [macosAutolockFrom, h1, h2]
  rfl

/-- Witness for C10 at a concrete pmset output with `displaysleep 0`. -/
theorem C10_displaysleep_zero_compliant_witness :
    macosAutolockFrom (true, " sleepimage 1\n displaysleep 0\n disksleep 10") (false, "") =
      ⟨true, "Display sleep timeout: 0 minutes", some ""⟩ :=
  C10_displaysleep_zero_compliant _ _ rfl (by decide)
